import Mathlib

/-!
Shallow embedding of the interop call-stub support layer
(`src/coreclr/vm/stubhelpers.cpp`): the deferred byref validation queue
(`StubHelpers::ValidateByref` / `StubHelpers::ProcessByrefValidationList` /
`StubHelpers::ValidateObjectInternal` / `StubHelpers::ValidateObject`) and
the COM interface-pointer resolution path (`StubHelpers::GetCOMIPFromRCW`
with its cache helper `GetCOMIPFromRCW_GetIUnknownFromRCWCache`).

Pointers (`Object *`, `MethodDesc *`, `MethodTable *`, `IUnknown *`,
context cookies) are modelled as `Nat`, with `0` standing for `NULL`.
External runtime services (the GC heap, name formatting, the COM object
model) are modelled as oracle records whose fields are the functions the
source calls.  Exceptional control flow (`EX_TRY`/`EX_CATCH`, `ThrowHR`,
`EEPOLICY_HANDLE_FATAL_ERROR`) is modelled by explicit outcome types.
-/

namespace StubHelpersModel

/-- A machine pointer; `0` is `NULL`. -/
abbrev Ptr := Nat

/-- One invocation of `Object::Validate(bDeep, bVerifyNextHeader, bVerifySyncBlock)`,
recorded in the order the calls are made. -/
structure ValidationCall where
  obj : Ptr
  bDeep : Bool
  bVerifyNextHeader : Bool
  bVerifySyncBlock : Bool
deriving Repr, DecidableEq

/-- Oracle for the external GC heap services the source consumes
(`GCHeapUtilities::GetGCHeap()` and `g_pFreeObjectMethodTable`).
`validateOk obj d h s` tells whether `obj->Validate(d, h, s)` succeeds;
a failing call raises, which the callers catch via `EX_CATCH`. -/
structure GCHeap where
  nextObj : Ptr → Ptr
  validateOk : Ptr → Bool → Bool → Bool → Bool
  isHeapPointer : Ptr → Bool
  getContainingObject : Ptr → Ptr
  isConcurrentGCInProgress : Bool
  freeObjectMethodTable : Ptr

/-- Result of `StubHelpers::ValidateObjectInternal`: whether it returned
without raising, the volatile-read counter after the call (the next
object's method-table pointer is read through `VolatileLoad`, and the
counter indexes the trace `mtAt` of values those reads observe), and the
`Object::Validate` calls it performed, in order. -/
structure VOIResult where
  ok : Bool
  reads : Nat
  calls : List ValidationCall
deriving Repr, DecidableEq

/-- `StubHelpers::ValidateObjectInternal(pObjUNSAFE, fValidateNextObj)`
(stubhelpers.cpp:43-82).  `mtAt n` is the method-table value observed by
the `n`-th volatile read of the run; `reads` is the index of the next
read.  Validates the object itself (deep, no next-header, with
sync-block); when `fValidateNextObj` is set and a next object exists,
reads its method table exactly once and validates it (deep, no
next-header, no sync-block) only when that single value is neither null
nor `g_pFreeObjectMethodTable`. -/
def ValidateObjectInternal (gc : GCHeap) (mtAt : Nat → Ptr) (reads : Nat)
    (pObjUNSAFE : Ptr) (fValidateNextObj : Bool) : VOIResult :=
  let firstCalls : List ValidationCall :=
    if pObjUNSAFE ≠ 0 then [⟨pObjUNSAFE, true, false, true⟩] else []
  let firstOk : Bool := pObjUNSAFE == 0 || gc.validateOk pObjUNSAFE true false true
  if !firstOk then
    -- the raise from `Validate` aborts before the next-object check
    ⟨false, reads, firstCalls⟩
  else if fValidateNextObj then
    let nextObj := gc.nextObj pObjUNSAFE
    if nextObj ≠ 0 then
      let pMT := mtAt reads
      if pMT ≠ 0 ∧ pMT ≠ gc.freeObjectMethodTable then
        ⟨gc.validateOk nextObj true false false, reads + 1,
          firstCalls ++ [⟨nextObj, true, false, false⟩]⟩
      else
        ⟨true, reads + 1, firstCalls⟩
    else
      ⟨true, reads, firstCalls⟩
  else
    ⟨true, reads, firstCalls⟩

/-- `StubHelpers::ResolveInteropMethod(pThisUNSAFE, pMD)`
(stubhelpers.cpp:85-98).  `delegateInvoke` is the external lookup of a
delegate's `Invoke` method descriptor. -/
def ResolveInteropMethod (delegateInvoke : Ptr → Ptr) (pThisUNSAFE pMD : Ptr) : Ptr :=
  if pMD = 0 ∧ pThisUNSAFE ≠ 0 then delegateInvoke pThisUNSAFE else pMD

/-- Oracle for the external name services used by
`StubHelpers::FormatValidationMessage`: the fully qualified class name of
the method's type, the method's own name, and whether formatting the
message for this method descriptor itself raises (string building can
fail, e.g. on out-of-memory). -/
structure NameOracle where
  classFullName : Ptr → String
  methodName : Ptr → String
  fmtThrows : Ptr → Bool

/-- `StubHelpers::FormatValidationMessage(pMD, ssErrorString)`
(stubhelpers.cpp:101-131): the message text produced when formatting does
not raise.  `NAMESPACE_SEPARATOR_CHAR` is `.`. -/
def FormatValidationMessage (names : NameOracle) (pMD : Ptr) : String :=
  "Detected managed heap corruption, likely culprit is interop call through " ++
    (if pMD = 0 then "CALLI."
     else "method \x27" ++ names.classFullName pMD ++ "." ++ names.methodName pMD ++ "\x27.")

/-- One element of `s_ByrefValidationEntries`
(`StubHelpers::ByrefValidationEntry`). -/
structure ByrefValidationEntry where
  pByref : Ptr
  pMD : Ptr
deriving Repr, DecidableEq, Inhabited

/-- The global state of the byref validation queue:
`s_ByrefValidationEntries` (a `CQuickArray`; `entries.length` is its
`Size()`, i.e. the capacity) and `s_ByrefValidationIndex` (the live
count). -/
structure ByrefState where
  entries : List ByrefValidationEntry
  index : Nat
deriving Repr, DecidableEq

/-- How `StubHelpers::ProcessByrefValidationList` ends: normal return,
`EEPOLICY_HANDLE_FATAL_ERROR_WITH_MESSAGE(COR_E_EXECUTIONENGINE, msg)`,
or the bare `EEPOLICY_HANDLE_FATAL_ERROR(COR_E_EXECUTIONENGINE)` used
when formatting the message itself raised.  The fatal macros terminate
the runtime and do not return. -/
inductive DrainOutcome where
  | ok : DrainOutcome
  | fatalWithMessage : String → DrainOutcome
  | fatalGeneric : DrainOutcome
deriving Repr, DecidableEq

/-- Number of fatal-termination events an outcome stands for. -/
def DrainOutcome.fatalCount : DrainOutcome → Nat
  | .ok => 0
  | .fatalWithMessage _ => 1
  | .fatalGeneric => 1

/-- The `EX_TRY` loop body of `ProcessByrefValidationList`
(stubhelpers.cpp:153-159): for each saved entry in index order, resolve
the containing object with `GetContainingObject(entry.pByref, false)` and
run `ValidateObjectInternal(pObj, TRUE)`.  Returns the first entry whose
processing raised (if any; later entries are not visited), the
volatile-read counter, and, per visited entry in order, the resolved
containing object and the validation calls made for it. -/
def drainLoop (gc : GCHeap) (mtAt : Nat → Ptr) :
    List ByrefValidationEntry → Nat →
      Option ByrefValidationEntry × Nat × List (Ptr × List ValidationCall)
  | [], reads => (none, reads, [])
  | e :: rest, reads =>
    let pObjUNSAFE := gc.getContainingObject e.pByref
    let r := ValidateObjectInternal gc mtAt reads pObjUNSAFE true
    if r.ok then
      let rec2 := drainLoop gc mtAt rest r.reads
      (rec2.1, rec2.2.1, (pObjUNSAFE, r.calls) :: rec2.2.2)
    else
      (some e, r.reads, [(pObjUNSAFE, r.calls)])

/-- Result of one drain: the outcome, the queue state when the function
returns (or, for the fatal outcomes, the state of the globals at the
moment the non-returning fatal macro runs), and the per-entry visit log. -/
structure DrainResult where
  outcome : DrainOutcome
  state : ByrefState
  visited : List (Ptr × List ValidationCall)
deriving Repr, DecidableEq

/-- `StubHelpers::ProcessByrefValidationList()` (stubhelpers.cpp:134-177).
Runs the validation loop over the first `index` entries.  If no entry
raises, `s_ByrefValidationIndex` is set to `0`.  If one raises, the
`EX_CATCH` formats a message from that entry's `pMD` and terminates
fatally with it; if formatting raises, the nested `EX_CATCH` terminates
fatally without a message.  Both fatal paths run before the
`s_ByrefValidationIndex = 0` statement, which they never reach. -/
def ProcessByrefValidationList (gc : GCHeap) (mtAt : Nat → Ptr)
    (names : NameOracle) (s : ByrefState) : DrainResult :=
  match drainLoop gc mtAt (s.entries.take s.index) 0 with
  | (none, _, logs) => ⟨.ok, ⟨s.entries, 0⟩, logs⟩
  | (some e, _, logs) =>
    if names.fmtThrows e.pMD then
      ⟨.fatalGeneric, s, logs⟩
    else
      ⟨.fatalWithMessage (FormatValidationMessage names e.pMD), s, logs⟩

/-- `SIZE_T` arithmetic bound used by `ClrSafeInt<SIZE_T>` (64-bit). -/
abbrev SIZE_T_MOD : Nat := 2 ^ 64

/-- How `StubHelpers::ValidateByref` ends: early return because the byref
is not a heap pointer, a successful append (carrying `some gen` when it
then called `GarbageCollect(gen)`), or `ThrowHR(COR_E_OVERFLOW)` — an
ordinary catchable exception propagated to the caller, distinct from the
fatal termination of the drain path. -/
inductive EnqueueOutcome where
  | skipped : EnqueueOutcome
  | appended : Option Nat → EnqueueOutcome
  | overflow : EnqueueOutcome
deriving Repr, DecidableEq

/-- Whether the outcome includes a `GarbageCollect` request. -/
def EnqueueOutcome.requestsGC : EnqueueOutcome → Bool
  | .appended (some _) => true
  | _ => false

/-- `StubHelpers::ValidateByref(pByref, pMD, pThisUNSAFE)`
(stubhelpers.cpp:658-712), with `maxListSize` standing for the constant
`BYREF_VALIDATION_LIST_MAX_SIZE`.  Skips byrefs outside the managed
heap.  Under the lock: if `index >= Size()`, computes
`newSize = index * 2 + 1` through `ClrSafeInt` (throwing
`COR_E_OVERFLOW` if either step overflows `SIZE_T`), resizes the array
preserving its contents (`CQuickArray::ReSizeThrows`; fresh slots are
uninitialised, modelled as `default`), then stores the entry at `index`
and increments `index`.  After releasing the lock, requests
`GarbageCollect(0)` when the new count exceeds the threshold. -/
def ValidateByref (gc : GCHeap) (delegateInvoke : Ptr → Ptr) (maxListSize : Nat)
    (s : ByrefState) (pByref pMD pThisUNSAFE : Ptr) : EnqueueOutcome × ByrefState :=
  if !gc.isHeapPointer pByref then
    (.skipped, s)
  else
    let entry : ByrefValidationEntry :=
      ⟨pByref, ResolveInteropMethod delegateInvoke pThisUNSAFE pMD⟩
    if s.index ≥ s.entries.length then
      if 2 * s.index ≥ SIZE_T_MOD ∨ 2 * s.index + 1 ≥ SIZE_T_MOD then
        (.overflow, s)
      else
        let newSize := 2 * s.index + 1
        let grown := s.entries ++ List.replicate (newSize - s.entries.length) default
        let numOfEntries := s.index + 1
        (.appended (if numOfEntries > maxListSize then some 0 else none),
          ⟨grown.set s.index entry, numOfEntries⟩)
    else
      let numOfEntries := s.index + 1
      (.appended (if numOfEntries > maxListSize then some 0 else none),
        ⟨s.entries.set s.index entry, numOfEntries⟩)

/-- How `StubHelpers::ValidateObject` ends: normal return, fatal
termination with a message, or an exception escaping because
`FormatValidationMessage` itself raised inside the `EX_CATCH` (this
entry point has no nested handler around the formatting). -/
inductive ValidateOutcome where
  | ok : ValidateOutcome
  | fatalWithMessage : String → ValidateOutcome
  | threw : ValidateOutcome
deriving Repr, DecidableEq

/-- `StubHelpers::ValidateObject(pObjUNSAFE, pMD, pThisUNSAFE)`
(stubhelpers.cpp:628-656): runs `ValidateObjectInternal` with
`fValidateNextObj = !IsConcurrentGCInProgress()`; on a raise, formats a
message from `ResolveInteropMethod(pThisUNSAFE, pMD)` and terminates
fatally with it. -/
def ValidateObject (gc : GCHeap) (mtAt : Nat → Ptr) (names : NameOracle)
    (delegateInvoke : Ptr → Ptr) (pObjUNSAFE pMD pThisUNSAFE : Ptr) :
    ValidateOutcome × VOIResult :=
  let r := ValidateObjectInternal gc mtAt 0 pObjUNSAFE (!gc.isConcurrentGCInProgress)
  if r.ok then
    (.ok, r)
  else
    let pMDResolved := ResolveInteropMethod delegateInvoke pThisUNSAFE pMD
    if names.fmtThrows pMDResolved then
      (.threw, r)
    else
      (.fatalWithMessage (FormatValidationMessage names pMDResolved), r)

/-- One slot of the RCW's fixed-size interface cache
(`m_aInterfaceEntries[i]`): a method table and the interface pointer
cached for it. -/
structure InterfaceEntry where
  m_pMT : Ptr
  m_pUnknown : Ptr
deriving Repr, DecidableEq

/-- The wrapper (`RCW`) fields the fast path reads: the context cookie
(`GetWrapperCtxCookie()`), the free-threaded flag (`IsFreeThreaded()`),
and the interface cache array (its fixed length
`INTERFACE_ENTRY_CACHE_SIZE` is left abstract as the list's length). -/
structure RCW where
  wrapperCtxCookie : Ptr
  freeThreaded : Bool
  m_aInterfaceEntries : List InterfaceEntry
deriving Repr, DecidableEq

/-- The `CLRToCOMCallInfo` fields the helpers read: the interface method
table (`m_pInterfaceMT`) and the cached dispatch slot
(`m_cachedComSlot`). -/
structure CLRToCOMCallInfo where
  m_pInterfaceMT : Ptr
  m_cachedComSlot : Nat
deriving Repr, DecidableEq

/-- The linear scan of `GetCOMIPFromRCW_GetIUnknownFromRCWCache`
(stubhelpers.cpp:233-239): the first slot whose `m_pMT` equals the
requested interface method table yields its `m_pUnknown`; no match
yields `NULL`. -/
def scanInterfaceEntries : List InterfaceEntry → Ptr → Ptr
  | [], _ => 0
  | e :: rest, pItfMT =>
    if e.m_pMT = pItfMT then e.m_pUnknown else scanInterfaceEntries rest pItfMT

/-- `GetCOMIPFromRCW_GetIUnknownFromRCWCache(pRCW, pItfMT)`
(stubhelpers.cpp:222-243).  `pCurrentCtx` is the caller's current
context (`pOleTlsData->pCurrentCtx`).  The cache array is scanned only
when the current context equals the wrapper's cookie or the wrapper is
free-threaded; otherwise the helper returns `NULL` without looking at
the cache. -/
def GetCOMIPFromRCW_GetIUnknownFromRCWCache (pCurrentCtx : Ptr) (pRCW : RCW)
    (pItfMT : Ptr) : Ptr :=
  if pCurrentCtx = pRCW.wrapperCtxCookie ∨ pRCW.freeThreaded then
    scanInterfaceEntries pRCW.m_aInterfaceEntries pItfMT
  else 0

/-- Oracle for the external COM services of the slow and fast paths:
`vtblAt pUnk slot` is the dispatch-table load
`(*(LPVOID **)pUnk)[slot]` of `GetCOMIPFromRCW_GetTarget`, and
`getComIPFromRCWThrowing src itfMT` is
`ComObject::GetComIPFromRCWThrowing`, which on success returns an owned
interface pointer together with the refreshed wrapper cache, and on
failure raises a catchable exception. -/
structure ComEnv where
  vtblAt : Ptr → Nat → Ptr
  getComIPFromRCWThrowing : Ptr → Ptr → Except Unit (Ptr × RCW)

/-- `GetCOMIPFromRCW_GetTarget(pUnk, pComInfo)` (stubhelpers.cpp:245-252). -/
def GetCOMIPFromRCW_GetTarget (env : ComEnv) (pUnk : Ptr)
    (pComInfo : CLRToCOMCallInfo) : Ptr :=
  env.vtblAt pUnk pComInfo.m_cachedComSlot

/-- The fast-path cached pointer of `StubHelpers::GetCOMIPFromRCW`
(stubhelpers.cpp:305-310): `NULL` when the object has no wrapper
(`GetRawRCW()` returned `NULL`), otherwise the cache helper's answer. -/
def fastUnkOf (pCurrentCtx : Ptr) (pRCW : Option RCW) (pItfMT : Ptr) : Ptr :=
  match pRCW with
  | some rcw => GetCOMIPFromRCW_GetIUnknownFromRCWCache pCurrentCtx rcw pItfMT
  | none => 0

/-- The value `*ppTarget` holds after the fast path
(stubhelpers.cpp:312): the dispatch-table entry of the cached pointer
when there was a cache hit, otherwise whatever the location held on
entry (`targetInit`). -/
def fastTargetOf (env : ComEnv) (pCurrentCtx : Ptr) (pRCW : Option RCW)
    (pComInfo : CLRToCOMCallInfo) (targetInit : Ptr) : Ptr :=
  if fastUnkOf pCurrentCtx pRCW pComInfo.m_pInterfaceMT ≠ 0 then
    GetCOMIPFromRCW_GetTarget env (fastUnkOf pCurrentCtx pRCW pComInfo.m_pInterfaceMT) pComInfo
  else targetInit

/-- Result of one `StubHelpers::GetCOMIPFromRCW` call: the returned
interface pointer (`0` when the slow path's exception propagated), the
final value of `*ppTarget`, the writes made to `*pfNeedsRelease` in
program order, how many times the slow-path resolver ran, the final
wrapper cache, and whether a catchable exception escaped to the caller. -/
structure ComCallResult where
  pUnk : Ptr
  target : Ptr
  flagWrites : List Bool
  resolverCalls : Nat
  finalRCW : Option RCW
  err : Bool
deriving Repr, DecidableEq

/-- The value `*pfNeedsRelease` holds after the call (the last write). -/
def ComCallResult.needsRelease (r : ComCallResult) : Bool :=
  r.flagWrites.getLastD false

/-- `StubHelpers::GetCOMIPFromRCW(pSrcUNSAFE, pMD, ppTarget, pfNeedsRelease)`
(stubhelpers.cpp:292-325) together with the slow path
`GetCOMIPFromRCWHelper` (stubhelpers.cpp:254-280).  `pRCW` is the
wrapper obtained from the object's sync block (`GetRawRCW()`, possibly
`NULL`); `targetInit` is whatever `*ppTarget` held on entry.  The
function first writes `false` to `*pfNeedsRelease`.  On a cache hit it
writes the dispatch target to `*ppTarget` and, when that target is
non-null, returns the borrowed cached pointer.  Otherwise it writes
`true` to `*pfNeedsRelease` and runs the helper, which calls the
external resolver once; on success the helper stores the fresh target
and returns the owned pointer, and on failure the exception propagates
with `*ppTarget` and `*pfNeedsRelease` left as last written. -/
def GetCOMIPFromRCW (env : ComEnv) (pCurrentCtx : Ptr) (pRCW : Option RCW)
    (pComInfo : CLRToCOMCallInfo) (pSrc : Ptr) (targetInit : Ptr) : ComCallResult :=
  if fastUnkOf pCurrentCtx pRCW pComInfo.m_pInterfaceMT ≠ 0 ∧
      fastTargetOf env pCurrentCtx pRCW pComInfo targetInit ≠ 0 then
    ⟨fastUnkOf pCurrentCtx pRCW pComInfo.m_pInterfaceMT,
      fastTargetOf env pCurrentCtx pRCW pComInfo targetInit, [false], 0, pRCW, false⟩
  else
    match env.getComIPFromRCWThrowing pSrc pComInfo.m_pInterfaceMT with
    | .ok (pRetUnk, rcw2) =>
      ⟨pRetUnk, GetCOMIPFromRCW_GetTarget env pRetUnk pComInfo,
        [false, true], 1, some rcw2, false⟩
    | .error _ =>
      ⟨0, fastTargetOf env pCurrentCtx pRCW pComInfo targetInit, [false, true], 1, pRCW, true⟩

/-! ## Theorems -/

/-- Claim C4: the fast-path cache of a wrapper is scanned if and only if
the wrapper is free-threaded or the caller's current execution-context
identifier equals the wrapper's recorded context; a free-threaded
wrapper's cache is consulted regardless of the caller's context.
"Scanned" is expressed by the result being the linear scan of the cache
array; "not scanned" by the result being `NULL` for every possible cache
content. -/
theorem C4_cache_scan_iff (pCurrentCtx : Ptr) (pRCW : RCW) (pItfMT : Ptr) :
    ((pRCW.freeThreaded = true ∨ pCurrentCtx = pRCW.wrapperCtxCookie) →
      GetCOMIPFromRCW_GetIUnknownFromRCWCache pCurrentCtx pRCW pItfMT =
        scanInterfaceEntries pRCW.m_aInterfaceEntries pItfMT) ∧
    (pRCW.freeThreaded = false → pCurrentCtx ≠ pRCW.wrapperCtxCookie →
      ∀ es : List InterfaceEntry,
        GetCOMIPFromRCW_GetIUnknownFromRCWCache pCurrentCtx
          ⟨pRCW.wrapperCtxCookie, pRCW.freeThreaded, es⟩ pItfMT = 0) ∧
    (pRCW.freeThreaded = true → ∀ ctx2 : Ptr,
      GetCOMIPFromRCW_GetIUnknownFromRCWCache pCurrentCtx pRCW pItfMT =
        GetCOMIPFromRCW_GetIUnknownFromRCWCache ctx2 pRCW pItfMT) := by
  refine ⟨?_, ?_, ?_⟩
  · intro h
    rcases h with h | h <;> simp [GetCOMIPFromRCW_GetIUnknownFromRCWCache, h]
  · intro hft hctx es
    simp [GetCOMIPFromRCW_GetIUnknownFromRCWCache, hft, hctx]
  · intro hft ctx2
    simp [GetCOMIPFromRCW_GetIUnknownFromRCWCache, hft]

/-- Witness for C4: a free-threaded wrapper whose recorded context `5`
differs from the caller's context `1` still has its cache scanned, and a
non-free-threaded wrapper with the same mismatch yields `NULL`. -/
theorem C4_cache_scan_iff_witness :
    GetCOMIPFromRCW_GetIUnknownFromRCWCache 1 ⟨5, true, [⟨3, 9⟩]⟩ 3 =
      scanInterfaceEntries [⟨3, 9⟩] 3 ∧
    GetCOMIPFromRCW_GetIUnknownFromRCWCache 1 ⟨5, false, [⟨3, 9⟩]⟩ 3 = 0 :=
  ⟨(C4_cache_scan_iff 1 ⟨5, true, [⟨3, 9⟩]⟩ 3).1 (Or.inl rfl),
   (C4_cache_scan_iff 1 ⟨5, false, [⟨3, 9⟩]⟩ 3).2.1 rfl (by decide) [⟨3, 9⟩]⟩

/-- Claim C5: when validation includes the heap-adjacent next object and
that object exists, its type descriptor is read exactly once (the
volatile-read counter advances by exactly 1), and the next object is
subjected to structural validation if and only if that single read value
is nonzero and not the reserved free-object sentinel. -/
theorem C5_next_object_single_read (gc : GCHeap) (mtAt : Nat → Ptr) (reads : Nat)
    (pObjUNSAFE : Ptr)
    (hok : pObjUNSAFE = 0 ∨ gc.validateOk pObjUNSAFE true false true = true)
    (hnext : gc.nextObj pObjUNSAFE ≠ 0) :
    (ValidateObjectInternal gc mtAt reads pObjUNSAFE true).reads = reads + 1 ∧
    ((⟨gc.nextObj pObjUNSAFE, true, false, false⟩ : ValidationCall) ∈
        (ValidateObjectInternal gc mtAt reads pObjUNSAFE true).calls ↔
      mtAt reads ≠ 0 ∧ mtAt reads ≠ gc.freeObjectMethodTable) := by
  have hfirst : (pObjUNSAFE == 0 || gc.validateOk pObjUNSAFE true false true) = true := by
    rcases hok with h | h <;> simp [h]
  by_cases hmt : mtAt reads ≠ 0 ∧ mtAt reads ≠ gc.freeObjectMethodTable
  · have hcalc : ValidateObjectInternal gc mtAt reads pObjUNSAFE true =
        ⟨gc.validateOk (gc.nextObj pObjUNSAFE) true false false, reads + 1,
          (if pObjUNSAFE ≠ 0 then [⟨pObjUNSAFE, true, false, true⟩] else []) ++
            [⟨gc.nextObj pObjUNSAFE, true, false, false⟩]⟩ := by
      unfold ValidateObjectInternal
      simp [hfirst, hnext, hmt]
    rw [hcalc]
    refine ⟨rfl, ?_⟩
    simp only [hmt, iff_true]
    simp
    exact hmt
  · have hcalc : ValidateObjectInternal gc mtAt reads pObjUNSAFE true =
        ⟨true, reads + 1,
          if pObjUNSAFE ≠ 0 then [⟨pObjUNSAFE, true, false, true⟩] else []⟩ := by
      unfold ValidateObjectInternal
      simp only [hfirst, Bool.not_true, Bool.false_eq_true, if_false]
      rw [if_pos trivial]
      simp only [ne_eq, hnext, not_false_eq_true, if_true, if_neg hmt]
    rw [hcalc]
    refine ⟨rfl, ?_⟩
    simp only [hmt, iff_false]
    split
    · simp [ValidationCall.mk.injEq]
    · simp

/-- Witness for C5: object `5` validates, its next object is `2`, the
single read observes `3` (neither null nor the sentinel `1`): the read
counter advances from 0 to 1 and the neighbor is validated. -/
theorem C5_next_object_single_read_witness :
    (ValidateObjectInternal ⟨fun _ => 2, fun _ _ _ _ => true, fun _ => true, fun p => p, false, 1⟩
        (fun _ => 3) 0 5 true).reads = 0 + 1 ∧
    ((⟨2, true, false, false⟩ : ValidationCall) ∈
        (ValidateObjectInternal ⟨fun _ => 2, fun _ _ _ _ => true, fun _ => true, fun p => p, false, 1⟩
          (fun _ => 3) 0 5 true).calls ↔
      (3 : Ptr) ≠ 0 ∧ (3 : Ptr) ≠ 1) :=
  C5_next_object_single_read
    ⟨fun _ => 2, fun _ _ _ _ => true, fun _ => true, fun p => p, false, 1⟩
    (fun _ => 3) 0 5 (Or.inr rfl) (by decide)

/-- Claim C7: enqueueing a pointer that is not in the managed heap is a
no-op: the returned state is the input state (entries, live count and
capacity unchanged) and no collection is requested. -/
theorem C7_enqueue_noop (gc : GCHeap) (delegateInvoke : Ptr → Ptr) (maxListSize : Nat)
    (s : ByrefState) (pByref pMD pThisUNSAFE : Ptr)
    (h : gc.isHeapPointer pByref = false) :
    ValidateByref gc delegateInvoke maxListSize s pByref pMD pThisUNSAFE = (.skipped, s) ∧
    (ValidateByref gc delegateInvoke maxListSize s pByref pMD pThisUNSAFE).1.requestsGC
      = false := by
  have : ValidateByref gc delegateInvoke maxListSize s pByref pMD pThisUNSAFE
      = (.skipped, s) := by
    unfold ValidateByref
    simp [h]
  exact ⟨this, by rw [this]; rfl⟩

/-- Witness for C7: with a heap oracle rejecting every pointer, enqueue
of `7` over an empty queue returns the state unchanged and requests no
collection. -/
theorem C7_enqueue_noop_witness :
    ValidateByref ⟨fun _ => 0, fun _ _ _ _ => true, fun _ => false, fun p => p, false, 1⟩
        (fun _ => 0) 100 ⟨[], 0⟩ 7 0 0 = (.skipped, ⟨[], 0⟩) ∧
    (ValidateByref ⟨fun _ => 0, fun _ _ _ _ => true, fun _ => false, fun p => p, false, 1⟩
        (fun _ => 0) 100 ⟨[], 0⟩ 7 0 0).1.requestsGC = false :=
  C7_enqueue_noop ⟨fun _ => 0, fun _ _ _ _ => true, fun _ => false, fun p => p, false, 1⟩
    (fun _ => 0) 100 ⟨[], 0⟩ 7 0 0 rfl

/-- Claim C9: after every successful append the live count has grown by
one, and a generation-0 collection is requested exactly when that
resulting live count exceeds the high-water mark
`BYREF_VALIDATION_LIST_MAX_SIZE` (never when at or below it). -/
theorem C9_high_water_mark (gc : GCHeap) (delegateInvoke : Ptr → Ptr) (maxListSize : Nat)
    (s : ByrefState) (pByref pMD pThisUNSAFE : Ptr) (g : Option Nat) (s2 : ByrefState)
    (h : ValidateByref gc delegateInvoke maxListSize s pByref pMD pThisUNSAFE
      = (.appended g, s2)) :
    s2.index = s.index + 1 ∧
    g = (if s2.index > maxListSize then some 0 else none) := by
  unfold ValidateByref at h
  by_cases hp : gc.isHeapPointer pByref
  · simp only [hp, Bool.not_true, Bool.false_eq_true, if_false] at h
    by_cases hfull : s.index ≥ s.entries.length
    · rw [if_pos hfull] at h
      by_cases hov : 2 * s.index ≥ SIZE_T_MOD ∨ 2 * s.index + 1 ≥ SIZE_T_MOD
      · rw [if_pos hov] at h
        simp at h
      · rw [if_neg hov] at h
        simp only [Prod.mk.injEq, EnqueueOutcome.appended.injEq] at h
        obtain ⟨hg, hs⟩ := h
        subst hs
        exact ⟨rfl, hg.symm⟩
    · rw [if_neg hfull] at h
      simp only [Prod.mk.injEq, EnqueueOutcome.appended.injEq] at h
      obtain ⟨hg, hs⟩ := h
      subst hs
      exact ⟨rfl, hg.symm⟩
  · simp only [hp] at h
    simp at h

/-- Witness for C9: appending to an empty queue with high-water mark 0
gives live count 1 and a generation-0 collection request, matching
`1 > 0`. -/
theorem C9_high_water_mark_witness :
    (⟨[⟨7, 0⟩], 1⟩ : ByrefState).index = (⟨[], 0⟩ : ByrefState).index + 1 ∧
    (some 0 : Option Nat)
      = (if (⟨[⟨7, 0⟩], 1⟩ : ByrefState).index > 0 then some 0 else none) :=
  C9_high_water_mark ⟨fun _ => 0, fun _ _ _ _ => true, fun _ => true, fun p => p, false, 1⟩
    (fun _ => 0) 0 ⟨[], 0⟩ 7 0 0 (some 0) ⟨[⟨7, 0⟩], 1⟩ (by decide)

/-- Writing at a position at or beyond `n` leaves the first `n` elements
of a list unchanged. -/
theorem take_of_set_ge {α : Type} (l : List α) (i n : Nat) (a : α) (h : n ≤ i) :
    (l.set i a).take n = l.take n := by
  apply List.ext_getElem
  · simp
  · intro k h1 h2
    have hk : k < n := by
      have := h2
      simp [List.length_take] at this
      omega
    simp only [List.getElem_take]
    rw [List.getElem_set_ne]
    omega

/-- Claim C6: when the queue is full (live count equal to capacity) and
the capacity computation does not overflow, the append resizes to twice
the old capacity plus one and preserves every previously stored entry;
when the computation overflows `SIZE_T`, the enqueue signals the
catchable `COR_E_OVERFLOW` condition and leaves the queue unchanged. -/
theorem C6_grow_doubling_overflow (gc : GCHeap) (delegateInvoke : Ptr → Ptr)
    (maxListSize : Nat) (s : ByrefState) (pByref pMD pThisUNSAFE : Ptr)
    (hheap : gc.isHeapPointer pByref = true) :
    (s.index = s.entries.length → 2 * s.index + 1 < SIZE_T_MOD →
      (∃ g : Option Nat,
        (ValidateByref gc delegateInvoke maxListSize s pByref pMD pThisUNSAFE).1
          = .appended g) ∧
      (ValidateByref gc delegateInvoke maxListSize s pByref pMD pThisUNSAFE).2.index
        = s.index + 1 ∧
      (ValidateByref gc delegateInvoke maxListSize s pByref pMD pThisUNSAFE).2.entries.length
        = 2 * s.entries.length + 1 ∧
      (ValidateByref gc delegateInvoke maxListSize s pByref pMD
          pThisUNSAFE).2.entries.take s.entries.length = s.entries) ∧
    (s.index ≥ s.entries.length → 2 * s.index + 1 ≥ SIZE_T_MOD →
      ValidateByref gc delegateInvoke maxListSize s pByref pMD pThisUNSAFE
        = (.overflow, s)) := by
  constructor
  · intro hfull hnoov
    have hge : s.index ≥ s.entries.length := le_of_eq hfull.symm
    have hov : ¬(2 * s.index ≥ SIZE_T_MOD ∨ 2 * s.index + 1 ≥ SIZE_T_MOD) := by
      push_neg
      omega
    have hcalc : ValidateByref gc delegateInvoke maxListSize s pByref pMD pThisUNSAFE
        = (.appended (if s.index + 1 > maxListSize then some 0 else none),
           ⟨(s.entries ++
               List.replicate (2 * s.index + 1 - s.entries.length) default).set s.index
              ⟨pByref, ResolveInteropMethod delegateInvoke pThisUNSAFE pMD⟩,
            s.index + 1⟩) := by
      unfold ValidateByref
      simp only [hheap, Bool.not_true, Bool.false_eq_true, if_false, ge_iff_le,
        if_pos hge, if_neg hov]
    rw [hcalc]
    refine ⟨⟨_, rfl⟩, rfl, ?_, ?_⟩
    · simp only [List.length_set, List.length_append, List.length_replicate]
      omega
    · rw [take_of_set_ge _ _ _ _ hge]
      have hlen : 2 * s.index + 1 - s.entries.length = s.entries.length + 1 := by omega
      rw [hlen]
      exact List.take_left s.entries _
  · intro hge hov
    unfold ValidateByref
    simp only [hheap, Bool.not_true, Bool.false_eq_true, if_false, ge_iff_le,
      if_pos hge]
    rw [if_pos (Or.inr hov)]

/-- Witness for C6: growing a full one-element queue yields capacity 3
with the stored entry preserved, and an enqueue whose live count is
`2^63` overflows the `SIZE_T` capacity computation, leaving the queue
unchanged. -/
theorem C6_grow_doubling_overflow_witness :
    ((∃ g : Option Nat,
        (ValidateByref ⟨fun _ => 0, fun _ _ _ _ => true, fun _ => true, fun p => p, false, 1⟩
            (fun _ => 0) 100 ⟨[⟨9, 4⟩], 1⟩ 7 3 0).1 = .appended g) ∧
      (ValidateByref ⟨fun _ => 0, fun _ _ _ _ => true, fun _ => true, fun p => p, false, 1⟩
          (fun _ => 0) 100 ⟨[⟨9, 4⟩], 1⟩ 7 3 0).2.index = 1 + 1 ∧
      (ValidateByref ⟨fun _ => 0, fun _ _ _ _ => true, fun _ => true, fun p => p, false, 1⟩
          (fun _ => 0) 100 ⟨[⟨9, 4⟩], 1⟩ 7 3 0).2.entries.length = 2 * 1 + 1 ∧
      (ValidateByref ⟨fun _ => 0, fun _ _ _ _ => true, fun _ => true, fun p => p, false, 1⟩
          (fun _ => 0) 100 ⟨[⟨9, 4⟩], 1⟩ 7 3 0).2.entries.take 1 = [⟨9, 4⟩]) ∧
    ValidateByref ⟨fun _ => 0, fun _ _ _ _ => true, fun _ => true, fun p => p, false, 1⟩
        (fun _ => 0) 100 ⟨[], 2 ^ 63⟩ 7 3 0 = (.overflow, ⟨[], 2 ^ 63⟩) :=
  ⟨(C6_grow_doubling_overflow
      ⟨fun _ => 0, fun _ _ _ _ => true, fun _ => true, fun p => p, false, 1⟩
      (fun _ => 0) 100 ⟨[⟨9, 4⟩], 1⟩ 7 3 0 rfl).1 rfl (by norm_num [SIZE_T_MOD]),
   (C6_grow_doubling_overflow
      ⟨fun _ => 0, fun _ _ _ _ => true, fun _ => true, fun p => p, false, 1⟩
      (fun _ => 0) 100 ⟨[], 2 ^ 63⟩ 7 3 0 rfl).2 (Nat.zero_le _)
     (by norm_num [SIZE_T_MOD])⟩

/-- With the validate-next-object flag clear, the internal validation
performs no descriptor read and only the argument object's own
validation call. -/
theorem ValidateObjectInternal_no_next (gc : GCHeap) (mtAt : Nat → Ptr) (reads : Nat)
    (pObjUNSAFE : Ptr) :
    (ValidateObjectInternal gc mtAt reads pObjUNSAFE false).reads = reads ∧
    (ValidateObjectInternal gc mtAt reads pObjUNSAFE false).calls
      = (if pObjUNSAFE ≠ 0 then [⟨pObjUNSAFE, true, false, true⟩] else []) := by
  unfold ValidateObjectInternal
  cases hfo : (pObjUNSAFE == 0 || gc.validateOk pObjUNSAFE true false true) <;> simp [hfo]

/-- Claim C8: the synchronous entry point `ValidateObject` runs the
internal validation with the validate-next-object flag equal to the
negation of "a concurrent collection is in progress": while a concurrent
collection runs, no neighbor type-descriptor read happens and every
validation call targets the argument object itself; with no concurrent
collection, the neighbor (when present and its single-read descriptor is
neither null nor the free sentinel) is validated. -/
theorem C8_neighbor_skip_during_bgc (gc : GCHeap) (mtAt : Nat → Ptr) (names : NameOracle)
    (delegateInvoke : Ptr → Ptr) (pObjUNSAFE pMD pThisUNSAFE : Ptr) :
    (ValidateObject gc mtAt names delegateInvoke pObjUNSAFE pMD pThisUNSAFE).2
      = ValidateObjectInternal gc mtAt 0 pObjUNSAFE (!gc.isConcurrentGCInProgress) ∧
    (gc.isConcurrentGCInProgress = true →
      (ValidateObject gc mtAt names delegateInvoke pObjUNSAFE pMD pThisUNSAFE).2.reads = 0 ∧
      ∀ c ∈ (ValidateObject gc mtAt names delegateInvoke pObjUNSAFE pMD
          pThisUNSAFE).2.calls, c.obj = pObjUNSAFE) ∧
    (gc.isConcurrentGCInProgress = false →
      (pObjUNSAFE = 0 ∨ gc.validateOk pObjUNSAFE true false true = true) →
      gc.nextObj pObjUNSAFE ≠ 0 → mtAt 0 ≠ 0 → mtAt 0 ≠ gc.freeObjectMethodTable →
      (⟨gc.nextObj pObjUNSAFE, true, false, false⟩ : ValidationCall) ∈
        (ValidateObject gc mtAt names delegateInvoke pObjUNSAFE pMD
          pThisUNSAFE).2.calls) := by
  have hsnd : (ValidateObject gc mtAt names delegateInvoke pObjUNSAFE pMD pThisUNSAFE).2
      = ValidateObjectInternal gc mtAt 0 pObjUNSAFE (!gc.isConcurrentGCInProgress) := by
    unfold ValidateObject
    dsimp only
    split
    · rfl
    · split <;> rfl
  refine ⟨hsnd, ?_, ?_⟩
  · intro hconc
    rw [hsnd, hconc]
    show (ValidateObjectInternal gc mtAt 0 pObjUNSAFE false).reads = 0 ∧ _
    refine ⟨(ValidateObjectInternal_no_next gc mtAt 0 pObjUNSAFE).1, ?_⟩
    intro c hc
    simp only [Bool.not_true] at hc
    rw [(ValidateObjectInternal_no_next gc mtAt 0 pObjUNSAFE).2] at hc
    split at hc
    · simp only [List.mem_singleton] at hc
      rw [hc]
    · simp at hc
  · intro hconc hok hnext hmt0 hmtf
    rw [hsnd, hconc]
    have hfirst : (pObjUNSAFE == 0 || gc.validateOk pObjUNSAFE true false true) = true := by
      rcases hok with h | h <;> simp [h]
    have hcond : mtAt 0 ≠ 0 ∧ mtAt 0 ≠ gc.freeObjectMethodTable := ⟨hmt0, hmtf⟩
    unfold ValidateObjectInternal
    simp [hfirst, hnext, hcond]

/-- Witness for C8: with a concurrent collection in progress the neighbor
of object `5` (which exists, object `2`) is not examined: no descriptor
read happens and all validation calls target `5`; the first conjunct
instantiates to the equation with the flag `!true`. -/
theorem C8_neighbor_skip_during_bgc_witness :
    (ValidateObject ⟨fun _ => 2, fun _ _ _ _ => true, fun _ => true, fun p => p, true, 1⟩
        (fun _ => 3) ⟨fun _ => "C", fun _ => "M", fun _ => false⟩ (fun _ => 0) 5 0 0).2.reads
      = 0 ∧
    ∀ c ∈ (ValidateObject ⟨fun _ => 2, fun _ _ _ _ => true, fun _ => true, fun p => p, true, 1⟩
        (fun _ => 3) ⟨fun _ => "C", fun _ => "M", fun _ => false⟩ (fun _ => 0) 5 0 0).2.calls,
      c.obj = 5 :=
  (C8_neighbor_skip_during_bgc ⟨fun _ => 2, fun _ _ _ _ => true, fun _ => true, fun p => p, true, 1⟩
    (fun _ => 3) ⟨fun _ => "C", fun _ => "M", fun _ => false⟩ (fun _ => 0) 5 0 0).2.1 rfl

/-- Claim C3: `GetCOMIPFromRCW` takes the slow path exactly when the
fast-path cache lookup missed (no wrapper, context/threading rejection,
or no matching slot) or the resolved call target was null.  On a cache
hit with a non-null target it returns the cached pointer borrowed
(`*pfNeedsRelease` reads `false`) and the slow resolver runs 0 times;
otherwise the resolver runs exactly once, `*pfNeedsRelease` reads
`true`, and on a successful resolution the returned pointer is the
resolver's owned pointer with the wrapper cache refreshed to the
resolver's updated cache. -/
theorem C3_fast_slow_protocol (env : ComEnv) (pCurrentCtx : Ptr) (pRCW : Option RCW)
    (pComInfo : CLRToCOMCallInfo) (pSrc targetInit : Ptr) :
    (fastUnkOf pCurrentCtx pRCW pComInfo.m_pInterfaceMT ≠ 0 ∧
        fastTargetOf env pCurrentCtx pRCW pComInfo targetInit ≠ 0 →
      (GetCOMIPFromRCW env pCurrentCtx pRCW pComInfo pSrc targetInit).resolverCalls = 0 ∧
      (GetCOMIPFromRCW env pCurrentCtx pRCW pComInfo pSrc targetInit).pUnk
        = fastUnkOf pCurrentCtx pRCW pComInfo.m_pInterfaceMT ∧
      (GetCOMIPFromRCW env pCurrentCtx pRCW pComInfo pSrc targetInit).needsRelease = false ∧
      (GetCOMIPFromRCW env pCurrentCtx pRCW pComInfo pSrc targetInit).finalRCW = pRCW ∧
      (GetCOMIPFromRCW env pCurrentCtx pRCW pComInfo pSrc targetInit).err = false) ∧
    (¬(fastUnkOf pCurrentCtx pRCW pComInfo.m_pInterfaceMT ≠ 0 ∧
        fastTargetOf env pCurrentCtx pRCW pComInfo targetInit ≠ 0) →
      (GetCOMIPFromRCW env pCurrentCtx pRCW pComInfo pSrc targetInit).resolverCalls = 1 ∧
      (GetCOMIPFromRCW env pCurrentCtx pRCW pComInfo pSrc targetInit).needsRelease = true ∧
      ∀ u : Ptr, ∀ rcw2 : RCW,
        env.getComIPFromRCWThrowing pSrc pComInfo.m_pInterfaceMT = Except.ok (u, rcw2) →
        (GetCOMIPFromRCW env pCurrentCtx pRCW pComInfo pSrc targetInit).pUnk = u ∧
        (GetCOMIPFromRCW env pCurrentCtx pRCW pComInfo pSrc targetInit).finalRCW
          = some rcw2 ∧
        (GetCOMIPFromRCW env pCurrentCtx pRCW pComInfo pSrc targetInit).target
          = GetCOMIPFromRCW_GetTarget env u pComInfo ∧
        (GetCOMIPFromRCW env pCurrentCtx pRCW pComInfo pSrc targetInit).err = false) ∧
    ((GetCOMIPFromRCW env pCurrentCtx pRCW pComInfo pSrc targetInit).resolverCalls = 1 →
      ¬(fastUnkOf pCurrentCtx pRCW pComInfo.m_pInterfaceMT ≠ 0 ∧
        fastTargetOf env pCurrentCtx pRCW pComInfo targetInit ≠ 0)) := by
  by_cases hfast : fastUnkOf pCurrentCtx pRCW pComInfo.m_pInterfaceMT ≠ 0 ∧
      fastTargetOf env pCurrentCtx pRCW pComInfo targetInit ≠ 0
  · have hcalc : GetCOMIPFromRCW env pCurrentCtx pRCW pComInfo pSrc targetInit
        = ⟨fastUnkOf pCurrentCtx pRCW pComInfo.m_pInterfaceMT,
            fastTargetOf env pCurrentCtx pRCW pComInfo targetInit,
            [false], 0, pRCW, false⟩ := by
      unfold GetCOMIPFromRCW
      rw [if_pos hfast]
    refine ⟨fun _ => ?_, fun h => absurd hfast h, fun h => ?_⟩
    · rw [hcalc]
      exact ⟨rfl, rfl, rfl, rfl, rfl⟩
    · rw [hcalc] at h
      simp at h
  · refine ⟨fun h => absurd h hfast, fun _ => ?_, fun _ => hfast⟩
    cases hres : env.getComIPFromRCWThrowing pSrc pComInfo.m_pInterfaceMT with
    | error e =>
      have hcalc : GetCOMIPFromRCW env pCurrentCtx pRCW pComInfo pSrc targetInit
          = ⟨0, fastTargetOf env pCurrentCtx pRCW pComInfo targetInit,
              [false, true], 1, pRCW, true⟩ := by
        unfold GetCOMIPFromRCW
        rw [if_neg hfast, hres]
      rw [hcalc]
      refine ⟨rfl, rfl, ?_⟩
      intro u rcw2 hok
      exact absurd hok (by simp)
    | ok p =>
      obtain ⟨u0, rcw0⟩ := p
      have hcalc : GetCOMIPFromRCW env pCurrentCtx pRCW pComInfo pSrc targetInit
          = ⟨u0, GetCOMIPFromRCW_GetTarget env u0 pComInfo,
              [false, true], 1, some rcw0, false⟩ := by
        unfold GetCOMIPFromRCW
        rw [if_neg hfast, hres]
      rw [hcalc]
      refine ⟨rfl, rfl, ?_⟩
      intro u rcw2 hok
      have := Except.ok.inj hok
      obtain ⟨h1, h2⟩ := Prod.mk.injEq u0 rcw0 u rcw2 ▸ this
      subst h1
      subst h2
      exact ⟨rfl, rfl, rfl, rfl⟩

/-- Witness for C3: a free-threaded wrapper with interface `3` cached at
pointer `9` and dispatch target `11` takes the fast path (resolver 0
times, borrowed); the same wrapper queried for interface `4` misses and
takes the slow path exactly once, returning the resolver's owned
pointer `21` with the refreshed cache installed. -/
theorem C3_fast_slow_protocol_witness :
    ((GetCOMIPFromRCW ⟨fun u s => u + s, fun _ _ => .ok (21, ⟨5, true, [⟨4, 21⟩]⟩)⟩ 1
        (some ⟨5, true, [⟨3, 9⟩]⟩) ⟨3, 2⟩ 6 0).resolverCalls = 0 ∧
      (GetCOMIPFromRCW ⟨fun u s => u + s, fun _ _ => .ok (21, ⟨5, true, [⟨4, 21⟩]⟩)⟩ 1
        (some ⟨5, true, [⟨3, 9⟩]⟩) ⟨3, 2⟩ 6 0).needsRelease = false) ∧
    ((GetCOMIPFromRCW ⟨fun u s => u + s, fun _ _ => .ok (21, ⟨5, true, [⟨4, 21⟩]⟩)⟩ 1
        (some ⟨5, true, [⟨3, 9⟩]⟩) ⟨4, 2⟩ 6 0).resolverCalls = 1 ∧
      (GetCOMIPFromRCW ⟨fun u s => u + s, fun _ _ => .ok (21, ⟨5, true, [⟨4, 21⟩]⟩)⟩ 1
        (some ⟨5, true, [⟨3, 9⟩]⟩) ⟨4, 2⟩ 6 0).needsRelease = true ∧
      (GetCOMIPFromRCW ⟨fun u s => u + s, fun _ _ => .ok (21, ⟨5, true, [⟨4, 21⟩]⟩)⟩ 1
        (some ⟨5, true, [⟨3, 9⟩]⟩) ⟨4, 2⟩ 6 0).pUnk = 21 ∧
      (GetCOMIPFromRCW ⟨fun u s => u + s, fun _ _ => .ok (21, ⟨5, true, [⟨4, 21⟩]⟩)⟩ 1
        (some ⟨5, true, [⟨3, 9⟩]⟩) ⟨4, 2⟩ 6 0).finalRCW = some ⟨5, true, [⟨4, 21⟩]⟩) :=
  ⟨⟨((C3_fast_slow_protocol ⟨fun u s => u + s, fun _ _ => .ok (21, ⟨5, true, [⟨4, 21⟩]⟩)⟩ 1
        (some ⟨5, true, [⟨3, 9⟩]⟩) ⟨3, 2⟩ 6 0).1 (by decide)).1,
     ((C3_fast_slow_protocol ⟨fun u s => u + s, fun _ _ => .ok (21, ⟨5, true, [⟨4, 21⟩]⟩)⟩ 1
        (some ⟨5, true, [⟨3, 9⟩]⟩) ⟨3, 2⟩ 6 0).1 (by decide)).2.2.1⟩,
   ⟨((C3_fast_slow_protocol ⟨fun u s => u + s, fun _ _ => .ok (21, ⟨5, true, [⟨4, 21⟩]⟩)⟩ 1
        (some ⟨5, true, [⟨3, 9⟩]⟩) ⟨4, 2⟩ 6 0).2.1 (by decide)).1,
     ((C3_fast_slow_protocol ⟨fun u s => u + s, fun _ _ => .ok (21, ⟨5, true, [⟨4, 21⟩]⟩)⟩ 1
        (some ⟨5, true, [⟨3, 9⟩]⟩) ⟨4, 2⟩ 6 0).2.1 (by decide)).2.1,
     (((C3_fast_slow_protocol ⟨fun u s => u + s, fun _ _ => .ok (21, ⟨5, true, [⟨4, 21⟩]⟩)⟩ 1
        (some ⟨5, true, [⟨3, 9⟩]⟩) ⟨4, 2⟩ 6 0).2.1 (by decide)).2.2 21 ⟨5, true, [⟨4, 21⟩]⟩
        rfl).1,
     (((C3_fast_slow_protocol ⟨fun u s => u + s, fun _ _ => .ok (21, ⟨5, true, [⟨4, 21⟩]⟩)⟩ 1
        (some ⟨5, true, [⟨3, 9⟩]⟩) ⟨4, 2⟩ 6 0).2.1 (by decide)).2.2 21 ⟨5, true, [⟨4, 21⟩]⟩
        rfl).2.1⟩⟩

/-- Claim C10: `GetCOMIPFromRCW` always writes the ownership flag: the
first write is `false` (on entry), and whenever the slow-path resolver
runs the writes are `false` then `true`, the `true` write preceding the
resolver; hence when slow-path resolution fails with a catchable error,
the flag is left reading `true` although no pointer is returned. -/
theorem C10_flag_on_error (env : ComEnv) (pCurrentCtx : Ptr) (pRCW : Option RCW)
    (pComInfo : CLRToCOMCallInfo) (pSrc targetInit : Ptr) :
    (GetCOMIPFromRCW env pCurrentCtx pRCW pComInfo pSrc targetInit).flagWrites.head?
      = some false ∧
    ((GetCOMIPFromRCW env pCurrentCtx pRCW pComInfo pSrc targetInit).resolverCalls = 1 →
      (GetCOMIPFromRCW env pCurrentCtx pRCW pComInfo pSrc targetInit).flagWrites
        = [false, true]) ∧
    ((GetCOMIPFromRCW env pCurrentCtx pRCW pComInfo pSrc targetInit).resolverCalls = 0 →
      (GetCOMIPFromRCW env pCurrentCtx pRCW pComInfo pSrc targetInit).flagWrites
        = [false]) ∧
    ((GetCOMIPFromRCW env pCurrentCtx pRCW pComInfo pSrc targetInit).err = true →
      (GetCOMIPFromRCW env pCurrentCtx pRCW pComInfo pSrc targetInit).needsRelease = true ∧
      (GetCOMIPFromRCW env pCurrentCtx pRCW pComInfo pSrc targetInit).pUnk = 0) := by
  unfold GetCOMIPFromRCW
  by_cases hfast : fastUnkOf pCurrentCtx pRCW pComInfo.m_pInterfaceMT ≠ 0 ∧
      fastTargetOf env pCurrentCtx pRCW pComInfo targetInit ≠ 0
  · rw [if_pos hfast]
    refine ⟨rfl, ?_, fun _ => rfl, ?_⟩
    · intro h
      simp at h
    · intro h
      simp at h
  · rw [if_neg hfast]
    cases hres : env.getComIPFromRCWThrowing pSrc pComInfo.m_pInterfaceMT with
    | error e =>
      exact ⟨rfl, fun _ => rfl, fun h => by simp at h, fun _ => ⟨rfl, rfl⟩⟩
    | ok p =>
      obtain ⟨u0, rcw0⟩ := p
      exact ⟨rfl, fun _ => rfl, fun h => by simp at h, fun h => by simp at h⟩

/-- Witness for C10: with a failing resolver and an apartment-bound
wrapper queried from the wrong context, the call errs with the flag
writes `[false, true]`, the flag reading `true` and no pointer
returned. -/
theorem C10_flag_on_error_witness :
    (GetCOMIPFromRCW ⟨fun u s => u + s, fun _ _ => .error ()⟩ 1
        (some ⟨5, false, [⟨3, 9⟩]⟩) ⟨3, 2⟩ 6 0).flagWrites.head? = some false ∧
    ((GetCOMIPFromRCW ⟨fun u s => u + s, fun _ _ => .error ()⟩ 1
        (some ⟨5, false, [⟨3, 9⟩]⟩) ⟨3, 2⟩ 6 0).resolverCalls = 1 →
      (GetCOMIPFromRCW ⟨fun u s => u + s, fun _ _ => .error ()⟩ 1
        (some ⟨5, false, [⟨3, 9⟩]⟩) ⟨3, 2⟩ 6 0).flagWrites = [false, true]) ∧
    ((GetCOMIPFromRCW ⟨fun u s => u + s, fun _ _ => .error ()⟩ 1
        (some ⟨5, false, [⟨3, 9⟩]⟩) ⟨3, 2⟩ 6 0).err = true →
      (GetCOMIPFromRCW ⟨fun u s => u + s, fun _ _ => .error ()⟩ 1
        (some ⟨5, false, [⟨3, 9⟩]⟩) ⟨3, 2⟩ 6 0).needsRelease = true ∧
      (GetCOMIPFromRCW ⟨fun u s => u + s, fun _ _ => .error ()⟩ 1
        (some ⟨5, false, [⟨3, 9⟩]⟩) ⟨3, 2⟩ 6 0).pUnk = 0) :=
  ⟨(C10_flag_on_error ⟨fun u s => u + s, fun _ _ => .error ()⟩ 1
      (some ⟨5, false, [⟨3, 9⟩]⟩) ⟨3, 2⟩ 6 0).1,
   (C10_flag_on_error ⟨fun u s => u + s, fun _ _ => .error ()⟩ 1
      (some ⟨5, false, [⟨3, 9⟩]⟩) ⟨3, 2⟩ 6 0).2.1,
   (C10_flag_on_error ⟨fun u s => u + s, fun _ _ => .error ()⟩ 1
      (some ⟨5, false, [⟨3, 9⟩]⟩) ⟨3, 2⟩ 6 0).2.2.2⟩

/-- A non-null object is always subjected to its own deep validation
call, whatever the next-object flag and the outcome. -/
theorem ValidateObjectInternal_self_mem (gc : GCHeap) (mtAt : Nat → Ptr) (reads : Nat)
    (pObjUNSAFE : Ptr) (fValidateNextObj : Bool) (h : pObjUNSAFE ≠ 0) :
    (⟨pObjUNSAFE, true, false, true⟩ : ValidationCall) ∈
      (ValidateObjectInternal gc mtAt reads pObjUNSAFE fValidateNextObj).calls := by
  unfold ValidateObjectInternal
  split_ifs <;> simp [h] <;> split_ifs <;> simp

/-- On a pass where no entry raises, the drain loop visits every entry
in list order, pairing each with its resolved containing object, and
every non-null resolved object receives its own deep validation call. -/
theorem drainLoop_none_spec (gc : GCHeap) (mtAt : Nat → Ptr) :
    ∀ (l : List ByrefValidationEntry) (reads : Nat),
      (drainLoop gc mtAt l reads).1 = none →
      (drainLoop gc mtAt l reads).2.2.map Prod.fst
        = l.map (fun e => gc.getContainingObject e.pByref) ∧
      ∀ p ∈ (drainLoop gc mtAt l reads).2.2, p.1 ≠ 0 →
        (⟨p.1, true, false, true⟩ : ValidationCall) ∈ p.2 := by
  intro l
  induction l with
  | nil =>
    intro reads _
    exact ⟨rfl, by simp [drainLoop]⟩
  | cons e rest ih =>
    intro reads hnone
    unfold drainLoop at hnone ⊢
    by_cases hok :
        (ValidateObjectInternal gc mtAt reads (gc.getContainingObject e.pByref) true).ok
    · simp only [hok, if_true] at hnone ⊢
      obtain ⟨h1, h2⟩ := ih _ hnone
      refine ⟨?_, ?_⟩
      · simp only [List.map_cons, h1]
      · intro p hp hne
        rcases List.mem_cons.mp hp with hp | hp
        · subst hp
          exact ValidateObjectInternal_self_mem gc mtAt reads _ true hne
        · exact h2 p hp hne
    · simp only [hok, Bool.false_eq_true, if_false] at hnone
      simp at hnone

/-- Computation rule for a drain on which no entry raises. -/
theorem ProcessByrefValidationList_of_none (gc : GCHeap) (mtAt : Nat → Ptr)
    (names : NameOracle) (s : ByrefState)
    (h : (drainLoop gc mtAt (s.entries.take s.index) 0).1 = none) :
    ProcessByrefValidationList gc mtAt names s
      = ⟨.ok, ⟨s.entries, 0⟩, (drainLoop gc mtAt (s.entries.take s.index) 0).2.2⟩ := by
  unfold ProcessByrefValidationList
  rcases hD : drainLoop gc mtAt (s.entries.take s.index) 0 with ⟨fail, reads2, logs⟩
  rw [hD] at h
  have h2 : fail = none := h
  subst h2
  rfl

/-- Computation rule for a drain on which some entry raises. -/
theorem ProcessByrefValidationList_of_some (gc : GCHeap) (mtAt : Nat → Ptr)
    (names : NameOracle) (s : ByrefState) (e : ByrefValidationEntry)
    (h : (drainLoop gc mtAt (s.entries.take s.index) 0).1 = some e) :
    ProcessByrefValidationList gc mtAt names s
      = if names.fmtThrows e.pMD then
          ⟨.fatalGeneric, s, (drainLoop gc mtAt (s.entries.take s.index) 0).2.2⟩
        else
          ⟨.fatalWithMessage (FormatValidationMessage names e.pMD), s,
            (drainLoop gc mtAt (s.entries.take s.index) 0).2.2⟩ := by
  unfold ProcessByrefValidationList
  rcases hD : drainLoop gc mtAt (s.entries.take s.index) 0 with ⟨fail, reads2, logs⟩
  rw [hD] at h
  have h2 : fail = some e := h
  subst h2
  rfl

/-- Claim C1 (amended): the drain resolves the containing object of each
live entry in index order and validates it, stopping at the first
failure; when every validation succeeds the live count resets to 0 with
the stored entries untouched; when one fails, the runtime is terminated
fatally (exactly one fatal event) and the live count is NOT reset — the
reset statement is unreachable past the non-returning fatal path. -/
theorem C1_drain_order_and_reset (gc : GCHeap) (mtAt : Nat → Ptr) (names : NameOracle)
    (s : ByrefState) :
    ((ProcessByrefValidationList gc mtAt names s).outcome = .ok →
      (ProcessByrefValidationList gc mtAt names s).state.index = 0 ∧
      (ProcessByrefValidationList gc mtAt names s).state.entries = s.entries ∧
      (ProcessByrefValidationList gc mtAt names s).visited.map Prod.fst
        = (s.entries.take s.index).map (fun e => gc.getContainingObject e.pByref) ∧
      ∀ p ∈ (ProcessByrefValidationList gc mtAt names s).visited, p.1 ≠ 0 →
        (⟨p.1, true, false, true⟩ : ValidationCall) ∈ p.2) ∧
    ((ProcessByrefValidationList gc mtAt names s).outcome ≠ .ok →
      (ProcessByrefValidationList gc mtAt names s).outcome.fatalCount = 1 ∧
      (ProcessByrefValidationList gc mtAt names s).state = s) := by
  cases hD2 : (drainLoop gc mtAt (s.entries.take s.index) 0).1 with
  | none =>
    rw [ProcessByrefValidationList_of_none gc mtAt names s hD2]
    constructor
    · intro _
      have hspec := drainLoop_none_spec gc mtAt (s.entries.take s.index) 0 hD2
      exact ⟨rfl, rfl, hspec.1, hspec.2⟩
    · intro hne
      exact absurd rfl hne
  | some e =>
    rw [ProcessByrefValidationList_of_some gc mtAt names s e hD2]
    by_cases hth : names.fmtThrows e.pMD
    · rw [if_pos hth]
      exact ⟨fun hok => by simp at hok, fun _ => ⟨rfl, rfl⟩⟩
    · rw [if_neg hth]
      exact ⟨fun hok => by simp at hok, fun _ => ⟨rfl, rfl⟩⟩

/-- Witness for C1 (amended): a two-entry queue whose objects both
validate drains to outcome `ok`, live count 0, entries untouched, and
visits `5` then `6` in order. -/
theorem C1_drain_order_and_reset_witness :
    (ProcessByrefValidationList
        ⟨fun _ => 0, fun _ _ _ _ => true, fun _ => true, fun p => p, false, 1⟩
        (fun _ => 0) ⟨fun _ => "C", fun _ => "M", fun _ => false⟩
        ⟨[⟨5, 0⟩, ⟨6, 2⟩], 2⟩).state.index = 0 ∧
    (ProcessByrefValidationList
        ⟨fun _ => 0, fun _ _ _ _ => true, fun _ => true, fun p => p, false, 1⟩
        (fun _ => 0) ⟨fun _ => "C", fun _ => "M", fun _ => false⟩
        ⟨[⟨5, 0⟩, ⟨6, 2⟩], 2⟩).state.entries = [⟨5, 0⟩, ⟨6, 2⟩] ∧
    (ProcessByrefValidationList
        ⟨fun _ => 0, fun _ _ _ _ => true, fun _ => true, fun p => p, false, 1⟩
        (fun _ => 0) ⟨fun _ => "C", fun _ => "M", fun _ => false⟩
        ⟨[⟨5, 0⟩, ⟨6, 2⟩], 2⟩).visited.map Prod.fst
      = (([⟨5, 0⟩, ⟨6, 2⟩] : List ByrefValidationEntry).take 2).map
          (fun e => e.pByref) ∧
    ∀ p ∈ (ProcessByrefValidationList
        ⟨fun _ => 0, fun _ _ _ _ => true, fun _ => true, fun p => p, false, 1⟩
        (fun _ => 0) ⟨fun _ => "C", fun _ => "M", fun _ => false⟩
        ⟨[⟨5, 0⟩, ⟨6, 2⟩], 2⟩).visited, p.1 ≠ 0 →
      (⟨p.1, true, false, true⟩ : ValidationCall) ∈ p.2 :=
  (C1_drain_order_and_reset
    ⟨fun _ => 0, fun _ _ _ _ => true, fun _ => true, fun p => p, false, 1⟩
    (fun _ => 0) ⟨fun _ => "C", fun _ => "M", fun _ => false⟩
    ⟨[⟨5, 0⟩, ⟨6, 2⟩], 2⟩).1 (by decide)

/-- Counterexample to claim C1 as stated: with one entry whose object
fails validation, the drain terminates the runtime fatally and the live
count is left at 1, not reset to 0 — the reset does not happen "whether
or not validation failed". -/
theorem C1_reset_counterexample :
    (ProcessByrefValidationList
        ⟨fun _ => 0, fun _ _ _ _ => false, fun _ => true, fun p => p, false, 1⟩
        (fun _ => 0) ⟨fun _ => "C", fun _ => "M", fun _ => false⟩
        ⟨[⟨5, 0⟩], 1⟩).outcome ≠ .ok ∧
    (ProcessByrefValidationList
        ⟨fun _ => 0, fun _ _ _ _ => false, fun _ => true, fun p => p, false, 1⟩
        (fun _ => 0) ⟨fun _ => "C", fun _ => "M", fun _ => false⟩
        ⟨[⟨5, 0⟩], 1⟩).outcome.fatalCount = 1 ∧
    (ProcessByrefValidationList
        ⟨fun _ => 0, fun _ _ _ _ => false, fun _ => true, fun p => p, false, 1⟩
        (fun _ => 0) ⟨fun _ => "C", fun _ => "M", fun _ => false⟩
        ⟨[⟨5, 0⟩], 1⟩).state.index = 1 := by
  refine ⟨?_, rfl, rfl⟩
  decide

/-- Claim C2: when some entry's validation raises during the drain, the
runtime is terminated exactly once; if formatting the diagnostic raises,
the termination degrades to the generic fatal error; otherwise the
fatal message is the one formatted from the failing entry's interop
method — containing the "CALLI." indirect-call phrase when that method
is null, and the method's name when not. -/
theorem C2_fatal_diagnostic (gc : GCHeap) (mtAt : Nat → Ptr) (names : NameOracle)
    (s : ByrefState) (e : ByrefValidationEntry)
    (h : (drainLoop gc mtAt (s.entries.take s.index) 0).1 = some e) :
    (ProcessByrefValidationList gc mtAt names s).outcome.fatalCount = 1 ∧
    (names.fmtThrows e.pMD = true →
      (ProcessByrefValidationList gc mtAt names s).outcome = .fatalGeneric) ∧
    (names.fmtThrows e.pMD = false →
      (ProcessByrefValidationList gc mtAt names s).outcome
        = .fatalWithMessage (FormatValidationMessage names e.pMD)) ∧
    (names.fmtThrows e.pMD = false → e.pMD = 0 →
      ∃ pre : String, (ProcessByrefValidationList gc mtAt names s).outcome
        = .fatalWithMessage (pre ++ "CALLI.")) ∧
    (names.fmtThrows e.pMD = false → e.pMD ≠ 0 →
      ∃ pre post : String, (ProcessByrefValidationList gc mtAt names s).outcome
        = .fatalWithMessage (pre ++ names.methodName e.pMD ++ post)) := by
  rw [ProcessByrefValidationList_of_some gc mtAt names s e h]
  by_cases hth : names.fmtThrows e.pMD
  · rw [if_pos hth]
    exact ⟨rfl, fun _ => rfl, fun hc => absurd hth (by simp [hc]),
      fun hc _ => absurd hth (by simp [hc]), fun hc _ => absurd hth (by simp [hc])⟩
  · rw [if_neg hth]
    refine ⟨rfl, fun hc => absurd hc (by simp [hth]), fun _ => rfl, ?_, ?_⟩
    · intro _ hmd
      refine ⟨"Detected managed heap corruption, likely culprit is interop call through ", ?_⟩
      show DrainOutcome.fatalWithMessage (FormatValidationMessage names e.pMD) = _
      unfold FormatValidationMessage
      rw [if_pos hmd]
    · intro _ hmd
      refine ⟨"Detected managed heap corruption, likely culprit is interop call through "
          ++ ("method \x27" ++ names.classFullName e.pMD ++ "."), "\x27.", ?_⟩
      show DrainOutcome.fatalWithMessage (FormatValidationMessage names e.pMD) = _
      unfold FormatValidationMessage
      rw [if_neg hmd]
      congr 1

/-- Witness for C2: a one-entry queue whose object fails validation and
whose entry has a null interop method terminates fatally once with the
message ending in the "CALLI." phrase. -/
theorem C2_fatal_diagnostic_witness :
    (ProcessByrefValidationList
        ⟨fun _ => 0, fun _ _ _ _ => false, fun _ => true, fun p => p, false, 1⟩
        (fun _ => 0) ⟨fun _ => "C", fun _ => "M", fun _ => false⟩
        ⟨[⟨5, 0⟩], 1⟩).outcome.fatalCount = 1 ∧
    ∃ pre : String,
      (ProcessByrefValidationList
          ⟨fun _ => 0, fun _ _ _ _ => false, fun _ => true, fun p => p, false, 1⟩
          (fun _ => 0) ⟨fun _ => "C", fun _ => "M", fun _ => false⟩
          ⟨[⟨5, 0⟩], 1⟩).outcome = .fatalWithMessage (pre ++ "CALLI.") :=
  ⟨(C2_fatal_diagnostic
      ⟨fun _ => 0, fun _ _ _ _ => false, fun _ => true, fun p => p, false, 1⟩
      (fun _ => 0) ⟨fun _ => "C", fun _ => "M", fun _ => false⟩
      ⟨[⟨5, 0⟩], 1⟩ ⟨5, 0⟩ (by decide)).1,
   (C2_fatal_diagnostic
      ⟨fun _ => 0, fun _ _ _ _ => false, fun _ => true, fun p => p, false, 1⟩
      (fun _ => 0) ⟨fun _ => "C", fun _ => "M", fun _ => false⟩
      ⟨[⟨5, 0⟩], 1⟩ ⟨5, 0⟩ (by decide)).2.2.2.1 rfl rfl⟩

end StubHelpersModel
